import Mathlib

/-!
Shallow embedding of `src/controllers/shopStatisticController.js` from the
`back-mean` repository, together with proofs checking the natural-language
specification against it.

Modelling conventions:
- MongoDB ObjectIds are modelled as natural numbers (`OID`); equality is the
  only operation the controller performs on them.
- Timestamps (`created_at`, resolved date windows) are modelled as integers;
  the controller only compares them with `$gte`/`$lte`.
- Monetary values (`amounts.total`, `items.total_price_ttc`) and ratings are
  modelled as rationals.
- Each HTTP handler is split into a validation wrapper (mirroring the
  `if (!shopId) ... if (!year) ...` guards) and a pure aggregation core
  (mirroring the MongoDB aggregation pipeline).  Resolved date windows are
  passed to the cores as explicit integer bounds.
- MongoDB `$group` is modelled as: one output row per distinct key occurring
  in the input rows, with `$sum`/`$first` folded over the rows carrying that
  key.  `$group` over an empty input yields no rows, which is why the
  source guards with `summary.length > 0`.
- MongoDB `$sort` is modelled as a stable insertion sort on the sort key
  (descending).  `$lookup` on `_id` is modelled with `List.find?` since
  `_id` is a unique key.
-/

/-- MongoDB ObjectId, modelled as a natural number. -/
abbrev OID := Nat

/-- Order status enumeration used by the controller
(`pending`, `confirmed`, `shipped`, `delivered`, `cancelled`). -/
inductive OrderStatus where
  | pending
  | confirmed
  | shipped
  | delivered
  | cancelled
deriving DecidableEq, Repr

/-- A line item of an order (`order.items[i]`): product reference, display
name snapshot, and tax-inclusive total price. -/
structure LineItem where
  product_id : OID
  name : String
  total_price_ttc : ℚ
deriving DecidableEq, Repr

/-- An order document, restricted to the fields the statistics controller
reads. -/
structure Order where
  shop_id : OID
  buyer_id : OID
  created_at : ℤ
  status : OrderStatus
  amountsTotal : ℚ
  items : List LineItem
deriving DecidableEq, Repr

/-- A product document: its id and its (nullable) category reference. -/
structure Product where
  id : OID
  category_id : Option OID
deriving DecidableEq, Repr

/-- A category document (`categoryproducts` collection). -/
structure Category where
  id : OID
  name : String
deriving DecidableEq, Repr

/-- The shop fields selected by `Shop.findById(shopId).select(...)`. -/
structure Shop where
  avg_rating : ℚ
  count_rating : ℕ
deriving DecidableEq, Repr

/-- A user profile (`user.profile`). -/
structure UserProfile where
  firstname : String
  lastname : String
  email : String
deriving DecidableEq, Repr

/-- A user document from the `users` collection. -/
structure User where
  id : OID
  profile : UserProfile
deriving DecidableEq, Repr

/-- Model of `x.toFixed(2)` followed by `parseFloat`: round to the nearest multiple
of 1/100, ties towards `+∞` (ECMAScript `toFixed` picks the larger
candidate on a tie, which matches Mathlib `round`). -/
def roundTo2 (q : ℚ) : ℚ := (round (q * 100) : ℤ) / 100

/-- The helper `calculatePercentageDiff` (lines 7-12): percentage change from
`previous` to `current`, with the zero-baseline convention. -/
def calculatePercentageDiff (current previous : ℚ) : ℚ :=
  if previous = 0 then (if current > 0 then 100 else 0)
  else roundTo2 ((current - previous) / previous * 100)

theorem roundTo2_den (q : ℚ) : ∃ n : ℤ, roundTo2 q = (n : ℚ) / 100 :=
  ⟨round (q * 100), rfl⟩

theorem roundTo2_close (q : ℚ) : |roundTo2 q - q| ≤ 1 / 200 := by
  have h := abs_sub_round (α := ℚ) (q * 100)
  rw [abs_sub_comm] at h
  have h3 : roundTo2 q - q = ((round (q * 100) : ℚ) - q * 100) / 100 := by
    rw [roundTo2]; ring
  rw [h3, abs_div, abs_of_pos (show (0:ℚ) < 100 by norm_num),
    div_le_div_iff₀ (by norm_num) (by norm_num)]
  linarith [h]

/-- C1: the shared percentage-diff helper returns 0 when both the previous
value and the current value are 0; returns 100 when the previous value is 0
and the current value is positive; and for a nonzero previous value returns
`(current - previous) / previous * 100` rounded to exactly two decimal
places (so the result is an integer multiple of 1/100 within 1/200 of the
exact value); in particular `diff 150 100 = 50` and `diff 50 100 = -50`. -/
theorem calculatePercentageDiff_spec (current previous : ℚ) :
    (previous = 0 ∧ current = 0 → calculatePercentageDiff current previous = 0) ∧
    (previous = 0 ∧ 0 < current → calculatePercentageDiff current previous = 100) ∧
    (previous ≠ 0 →
      calculatePercentageDiff current previous
        = roundTo2 ((current - previous) / previous * 100) ∧
      (∃ n : ℤ, calculatePercentageDiff current previous = (n : ℚ) / 100) ∧
      |calculatePercentageDiff current previous
        - (current - previous) / previous * 100| ≤ 1 / 200) ∧
    calculatePercentageDiff 150 100 = 50 ∧
    calculatePercentageDiff 50 100 = -50 := by
  refine ⟨?_, ?_, ?_, ?_, ?_⟩
  · rintro ⟨hp, hc⟩
    simp [calculatePercentageDiff, hp, hc]
  · rintro ⟨hp, hc⟩
    simp [calculatePercentageDiff, hp, hc]
  · intro hp
    refine ⟨by simp [calculatePercentageDiff, hp], ?_, ?_⟩
    · simp only [calculatePercentageDiff, if_neg hp]
      exact roundTo2_den _
    · simp only [calculatePercentageDiff, if_neg hp]
      exact roundTo2_close _
  · norm_num [calculatePercentageDiff, roundTo2, round_eq]
  · norm_num [calculatePercentageDiff, roundTo2, round_eq]

/-- Witness for C1 at concrete inputs. -/
theorem calculatePercentageDiff_spec_witness :
    calculatePercentageDiff 0 0 = 0 ∧ calculatePercentageDiff 7 0 = 100 ∧
    calculatePercentageDiff 150 100 = 50 := by
  obtain ⟨h1, h2, _h3, h4, _⟩ := calculatePercentageDiff_spec 150 100
  refine ⟨?_, ?_, h4⟩
  · exact (calculatePercentageDiff_spec 0 0).1 ⟨rfl, rfl⟩
  · exact ((calculatePercentageDiff_spec 7 0).2.1) ⟨rfl, by norm_num⟩

/-- The `$match` stage shared by order-summary, product-stats, category-stats
and global-stats: orders of the shop whose `created_at` lies in the inclusive
resolved window `[startTs, endTs]`. -/
def matchShopRange (shopId : OID) (startTs endTs : ℤ) (o : Order) : Bool :=
  o.shop_id == shopId && (startTs ≤ o.created_at && o.created_at ≤ endTs)

/-- The first aggregation of `getShopOrderSummary`:
`$group: {_id: null, totalOrders: {$sum: 1}, totalAmount: {$sum: "$amounts.total"}}`.
`$group` over an empty input emits no row at all. -/
def summaryAgg (l : List Order) : List (ℕ × ℚ) :=
  if l.isEmpty then []
  else [(l.length, (l.map (fun o => o.amountsTotal)).sum)]

/-- The `summary.length > 0 ? summary[0].x : 0` defaulting (lines 69-70). -/
def totalsOf (agg : List (ℕ × ℚ)) : ℕ × ℚ :=
  match agg with
  | [] => (0, 0)
  | x :: _ => x

/-- The second aggregation of `getShopOrderSummary`:
`$group: {_id: "$status", count: {$sum: 1}}` — one row per status present. -/
def statusBreakdown (l : List Order) : List (OrderStatus × ℕ) :=
  (l.map (fun o => o.status)).dedup.map
    (fun s => (s, (l.filter (fun o => o.status == s)).length))

/-- Model of `statusMap[s] || 0` (lines 65-66 and 71-72). -/
def statusMapLookup (m : List (OrderStatus × ℕ)) (s : OrderStatus) : ℕ :=
  match m.find? (fun p => p.1 == s) with
  | some p => p.2
  | none => 0

/-- Response shape of `getShopOrderSummary`. -/
structure OrderSummary where
  totalOrders : ℕ
  totalAmount : ℚ
  pendingOrders : ℕ
  confirmedOrders : ℕ
deriving DecidableEq, Repr

/-- Aggregation core of `getShopOrderSummary` (lines 33-73), over the resolved
date window. -/
def getShopOrderSummaryCore (shopId : OID) (startTs endTs : ℤ)
    (orders : List Order) : OrderSummary :=
  let matched := orders.filter (matchShopRange shopId startTs endTs)
  let summary := summaryAgg matched
  let statusMap := statusBreakdown matched
  { totalOrders := (totalsOf summary).1
    totalAmount := (totalsOf summary).2
    pendingOrders := statusMapLookup statusMap .pending
    confirmedOrders := statusMapLookup statusMap .confirmed }

theorem totalsOf_summaryAgg (l : List Order) :
    totalsOf (summaryAgg l) = (l.length, (l.map (fun o => o.amountsTotal)).sum) := by
  cases l <;> simp [summaryAgg, totalsOf]

theorem find?_beq_of_mem {α : Type} [DecidableEq α] {l : List α} {s : α}
    (h : s ∈ l) : l.find? (fun k => k == s) = some s := by
  induction l with
  | nil => cases h
  | cons a t ih =>
    by_cases ha : a = s
    · subst ha
      rw [List.find?_cons_of_pos _ (by simp)]
    · have hs : s ∈ t := by
        rcases List.mem_cons.mp h with h1 | h1
        · exact absurd h1.symm ha
        · exact h1
      rw [List.find?_cons_of_neg _ (by simp [ha])]
      exact ih hs

theorem statusMapLookup_statusBreakdown (l : List Order) (s : OrderStatus) :
    statusMapLookup (statusBreakdown l) s = l.countP (fun o => o.status == s) := by
  unfold statusMapLookup statusBreakdown
  rw [List.find?_map]
  by_cases h : s ∈ (l.map (fun o => o.status)).dedup
  · rw [show ((fun p : OrderStatus × ℕ => p.1 == s) ∘
        (fun s => (s, (l.filter (fun o => o.status == s)).length)))
        = (fun k => k == s) from rfl, find?_beq_of_mem h]
    simp [List.countP_eq_length_filter]
  · have hnone : (l.map (fun o => o.status)).dedup.find? (fun k => k == s) = none := by
      rw [List.find?_eq_none]
      intro x hx
      simp only [beq_iff_eq]
      intro hxs
      exact h (hxs ▸ hx)
    rw [show ((fun p : OrderStatus × ℕ => p.1 == s) ∘
        (fun s => (s, (l.filter (fun o => o.status == s)).length)))
        = (fun k => k == s) from rfl, hnone]
    have : l.countP (fun o => o.status == s) = 0 := by
      rw [List.countP_eq_zero]
      intro o ho
      simp only [beq_iff_eq]
      intro hos
      exact h (by
        rw [List.mem_dedup]
        exact List.mem_map.mpr ⟨o, ho, hos⟩)
    simp [this]

/-- C5: over the shop's orders whose creation timestamp lies in the resolved
window, the order summary returns the count of matching orders, the sum of
their `amounts.total`, the count of those with status `pending`, and the
count of those with status `confirmed`; in particular three in-range orders
with statuses [pending, confirmed, confirmed] and amounts [10, 20, 30] yield
`{totalOrders := 3, totalAmount := 60, pendingOrders := 1, confirmedOrders := 2}`. -/
theorem getShopOrderSummary_spec (shopId : OID) (startTs endTs : ℤ)
    (orders : List Order) :
    (getShopOrderSummaryCore shopId startTs endTs orders).totalOrders
      = (orders.filter (matchShopRange shopId startTs endTs)).length ∧
    (getShopOrderSummaryCore shopId startTs endTs orders).totalAmount
      = ((orders.filter (matchShopRange shopId startTs endTs)).map
          (fun o => o.amountsTotal)).sum ∧
    (getShopOrderSummaryCore shopId startTs endTs orders).pendingOrders
      = (orders.filter (matchShopRange shopId startTs endTs)).countP
          (fun o => o.status == .pending) ∧
    (getShopOrderSummaryCore shopId startTs endTs orders).confirmedOrders
      = (orders.filter (matchShopRange shopId startTs endTs)).countP
          (fun o => o.status == .confirmed) ∧
    getShopOrderSummaryCore 1 0 100
      [⟨1, 10, 1, .pending, 10, []⟩, ⟨1, 11, 2, .confirmed, 20, []⟩,
       ⟨1, 12, 3, .confirmed, 30, []⟩]
      = ⟨3, 60, 1, 2⟩ := by
  refine ⟨?_, ?_, ?_, ?_, ?_⟩
  · simp [getShopOrderSummaryCore, totalsOf_summaryAgg]
  · simp [getShopOrderSummaryCore, totalsOf_summaryAgg]
  · simp [getShopOrderSummaryCore, statusMapLookup_statusBreakdown]
  · simp [getShopOrderSummaryCore, statusMapLookup_statusBreakdown]
  · simp +decide [getShopOrderSummaryCore, matchShopRange, summaryAgg, totalsOf,
      statusBreakdown, statusMapLookup, List.filter, List.dedup, List.find?]
    norm_num

/-- Descending comparison on a sort key, modelling `$sort: {key: -1}`. -/
def keyDesc {α β : Type} [LinearOrder β] (k : α → β) : α → α → Prop :=
  fun a b => k b ≤ k a

instance {α β : Type} [LinearOrder β] (k : α → β) : DecidableRel (keyDesc k) :=
  fun a b => inferInstanceAs (Decidable (k b ≤ k a))

instance {α β : Type} [LinearOrder β] (k : α → β) : IsTotal α (keyDesc k) :=
  ⟨fun a b => le_total (k b) (k a)⟩

instance {α β : Type} [LinearOrder β] (k : α → β) : IsTrans α (keyDesc k) :=
  ⟨fun _ _ _ hab hbc => le_trans hbc hab⟩

/-- Model of `status: $in ['confirmed', 'shipped', 'delivered']` (line 101). -/
def allowedStatus (s : OrderStatus) : Bool :=
  s == .confirmed || s == .shipped || s == .delivered

/-- The `$match` stage of `getShopTopClients` (lines 98-104): shop, allowed
status, and creation timestamp within the inclusive window. -/
def matchTopClients (shopId : OID) (startTs endTs : ℤ) (o : Order) : Bool :=
  matchShopRange shopId startTs endTs o && allowedStatus o.status

/-- One row of `$group: {_id: "$buyer_id", orderCount: {$sum: 1},
totalAmount: {$sum: "$amounts.total"}}`. -/
structure BuyerGroup where
  _id : OID
  orderCount : ℕ
  totalAmount : ℚ
deriving DecidableEq, Repr

/-- One row of the `$project` stage of `getShopTopClients`. -/
structure TopClientRow where
  _id : OID
  orderCount : ℕ
  totalAmount : ℚ
  firstname : String
  lastname : String
  email : String
deriving DecidableEq, Repr

/-- Model of `$group` by `buyer_id`: one row per distinct buyer occurring in the
matched orders, with that buyer's order count and summed amount. -/
def groupByBuyer (l : List Order) : List BuyerGroup :=
  (l.map (fun o => o.buyer_id)).dedup.map (fun b =>
    { _id := b
      orderCount := (l.filter (fun o => o.buyer_id == b)).length
      totalAmount := ((l.filter (fun o => o.buyer_id == b)).map
        (fun o => o.amountsTotal)).sum })

/-- Model of the `$lookup` of the buyer in `users` followed by `$unwind: "$user"` and the
`$project`: since `_id` is a unique key the lookup yields at most one user;
`$unwind` drops the row when no user matches. -/
def lookupUser (users : List User) (g : BuyerGroup) : Option TopClientRow :=
  (users.find? (fun u => u.id == g._id)).map (fun u =>
    { _id := g._id
      orderCount := g.orderCount
      totalAmount := g.totalAmount
      firstname := u.profile.firstname
      lastname := u.profile.lastname
      email := u.profile.email })

/-- One of the two identical pipelines of `getShopTopClients` after its
`$match` stage: `$group` by buyer, `$sort` descending on `key`, `$limit: 5`,
`$lookup`+`$unwind`+`$project` of the buyer. -/
def topView {β : Type} [LinearOrder β] (key : BuyerGroup → β)
    (users : List User) (matched : List Order) : List TopClientRow :=
  ((List.insertionSort (keyDesc key) (groupByBuyer matched)).take 5).filterMap
    (lookupUser users)

/-- Aggregation core of `getShopTopClients` (lines 98-176): the pair
`(topByCount, topByAmount)`, sorted by order count and by total amount
respectively. -/
def getShopTopClientsCore (shopId : OID) (startTs endTs : ℤ)
    (orders : List Order) (users : List User) :
    List TopClientRow × List TopClientRow :=
  let matched := orders.filter (matchTopClients shopId startTs endTs)
  (topView (fun g => g.orderCount) users matched,
   topView (fun g => g.totalAmount) users matched)

theorem pairwise_filterMap_of_pairwise {α β : Type} (f : α → Option β)
    {R : α → α → Prop} {S : β → β → Prop}
    (hf : ∀ a a' b b', R a a' → f a = some b → f a' = some b' → S b b')
    {l : List α} (h : l.Pairwise R) : (l.filterMap f).Pairwise S := by
  induction l with
  | nil => simp
  | cons a t ih =>
    rcases List.pairwise_cons.mp h with ⟨ha, ht⟩
    cases hfa : f a with
    | none => simpa [List.filterMap_cons, hfa] using ih ht
    | some b =>
      rw [List.filterMap_cons, hfa]
      refine List.pairwise_cons.mpr ⟨?_, ih ht⟩
      intro b' hb'
      rcases List.mem_filterMap.mp hb' with ⟨a', ha', hfa'⟩
      exact hf a a' b b' (ha a' ha') hfa hfa'

theorem mem_groupByBuyer {l : List Order} {g : BuyerGroup}
    (h : g ∈ groupByBuyer l) :
    g.orderCount = (l.filter (fun o => o.buyer_id == g._id)).length ∧
    g.totalAmount = ((l.filter (fun o => o.buyer_id == g._id)).map
      (fun o => o.amountsTotal)).sum := by
  rcases List.mem_map.mp h with ⟨b, _hb, rfl⟩
  exact ⟨rfl, rfl⟩

theorem lookupUser_some {users : List User} {g : BuyerGroup} {r : TopClientRow}
    (h : lookupUser users g = some r) :
    r._id = g._id ∧ r.orderCount = g.orderCount ∧
    r.totalAmount = g.totalAmount ∧
    ∃ u ∈ users, u.id = g._id ∧ r.firstname = u.profile.firstname ∧
      r.lastname = u.profile.lastname ∧ r.email = u.profile.email := by
  unfold lookupUser at h
  cases hf : users.find? (fun u => u.id == g._id) with
  | none => rw [hf] at h; cases h
  | some u =>
    rw [hf] at h
    have hr : r =
        { _id := g._id, orderCount := g.orderCount,
          totalAmount := g.totalAmount, firstname := u.profile.firstname,
          lastname := u.profile.lastname, email := u.profile.email } := by
      cases h; rfl
    subst hr
    refine ⟨rfl, rfl, rfl, u, List.mem_of_find?_eq_some hf, ?_, rfl, rfl, rfl⟩
    have := List.find?_some hf
    simpa [beq_iff_eq] using this

theorem lookupUser_of_user_found {users : List User} {g : BuyerGroup}
    (h : ∃ u ∈ users, u.id = g._id) : ∃ r, lookupUser users g = some r := by
  rcases h with ⟨u, hu, hid⟩
  have hsome : (users.find? (fun u => u.id == g._id)).isSome := by
    rw [List.find?_isSome]
    exact ⟨u, hu, by simp [hid]⟩
  rcases Option.isSome_iff_exists.mp hsome with ⟨u', hu'⟩
  refine ⟨?_, ?_⟩
  · exact
      { _id := g._id, orderCount := g.orderCount, totalAmount := g.totalAmount,
        firstname := u'.profile.firstname, lastname := u'.profile.lastname,
        email := u'.profile.email }
  · simp [lookupUser, hu']

theorem topView_length_le {β : Type} [LinearOrder β] (key : BuyerGroup → β)
    (users : List User) (matched : List Order) :
    (topView key users matched).length ≤ 5 :=
  le_trans (List.length_filterMap_le _ _) (List.length_take_le ..)

theorem topView_mem {β : Type} [LinearOrder β] {key : BuyerGroup → β}
    {users : List User} {matched : List Order} {r : TopClientRow}
    (hr : r ∈ topView key users matched) :
    (∃ u ∈ users, u.id = r._id ∧ r.firstname = u.profile.firstname ∧
      r.lastname = u.profile.lastname ∧ r.email = u.profile.email) ∧
    r.orderCount = (matched.filter (fun o => o.buyer_id == r._id)).length ∧
    r.totalAmount = ((matched.filter (fun o => o.buyer_id == r._id)).map
      (fun o => o.amountsTotal)).sum := by
  rcases List.mem_filterMap.mp hr with ⟨g, hg, hlg⟩
  obtain ⟨hid, hc, ha, u, hu, huid, hf1, hf2, hf3⟩ := lookupUser_some hlg
  have hgmem : g ∈ groupByBuyer matched :=
    (List.mem_insertionSort (keyDesc key)).mp (List.mem_of_mem_take hg)
  obtain ⟨hcnt, hamt⟩ := mem_groupByBuyer hgmem
  refine ⟨⟨u, hu, hid ▸ huid.symm ▸ rfl, hf1, hf2, hf3⟩, ?_, ?_⟩
  · rw [hc, hcnt, hid]
  · rw [ha, hamt, hid]

theorem topView_keeps {β : Type} [LinearOrder β] {key : BuyerGroup → β}
    {users : List User} {matched : List Order} {g : BuyerGroup}
    (hg : g ∈ (List.insertionSort (keyDesc key) (groupByBuyer matched)).take 5)
    (hu : ∃ u ∈ users, u.id = g._id) :
    ∃ r ∈ topView key users matched,
      r._id = g._id ∧ r.orderCount = g.orderCount ∧
      r.totalAmount = g.totalAmount := by
  obtain ⟨r, hr⟩ := lookupUser_of_user_found hu
  obtain ⟨hid, hc, ha, _⟩ := lookupUser_some hr
  exact ⟨r, List.mem_filterMap.mpr ⟨g, hg, hr⟩, hid, hc, ha⟩

theorem topView_pairwise_count (users : List User) (matched : List Order) :
    (topView (fun g : BuyerGroup => g.orderCount) users matched).Pairwise
      (fun r r' => r'.orderCount ≤ r.orderCount) := by
  refine pairwise_filterMap_of_pairwise (lookupUser users)
    (R := keyDesc (fun g : BuyerGroup => g.orderCount)) ?_ ?_
  · intro a a' b b' hR hb hb'
    obtain ⟨_, hbc, _, _⟩ := lookupUser_some hb
    obtain ⟨_, hbc', _, _⟩ := lookupUser_some hb'
    rw [hbc, hbc']
    exact hR
  · exact (List.sorted_insertionSort
      (keyDesc (fun g : BuyerGroup => g.orderCount)) _).sublist
      (List.take_sublist 5 _)

theorem topView_pairwise_amount (users : List User) (matched : List Order) :
    (topView (fun g : BuyerGroup => g.totalAmount) users matched).Pairwise
      (fun r r' => r'.totalAmount ≤ r.totalAmount) := by
  refine pairwise_filterMap_of_pairwise (lookupUser users)
    (R := keyDesc (fun g : BuyerGroup => g.totalAmount)) ?_ ?_
  · intro a a' b b' hR hb hb'
    obtain ⟨_, _, hba, _⟩ := lookupUser_some hb
    obtain ⟨_, _, hba', _⟩ := lookupUser_some hb'
    rw [hba, hba']
    exact hR
  · exact (List.sorted_insertionSort
      (keyDesc (fun g : BuyerGroup => g.totalAmount)) _).sublist
      (List.take_sublist 5 _)

/-- C4: the top-clients report considers only the shop's in-range orders with
status confirmed, shipped or delivered (so restricting the input to orders
with those statuses does not change the result); groups them by buyer with
per-buyer order count and summed amount; returns two views sorted by order
count resp. total amount descending, each of length at most 5; every row
carries the profile of an existing user record for its buyer, and a grouped
row surviving the limit whose buyer record exists is kept (those without a
user record are the only ones dropped). -/
theorem getShopTopClients_spec (shopId : OID) (startTs endTs : ℤ)
    (orders : List Order) (users : List User) :
    getShopTopClientsCore shopId startTs endTs
        (orders.filter (fun o => allowedStatus o.status)) users
      = getShopTopClientsCore shopId startTs endTs orders users ∧
    (getShopTopClientsCore shopId startTs endTs orders users).1.length ≤ 5 ∧
    (getShopTopClientsCore shopId startTs endTs orders users).2.length ≤ 5 ∧
    (getShopTopClientsCore shopId startTs endTs orders users).1.Pairwise
      (fun r r' => r'.orderCount ≤ r.orderCount) ∧
    (getShopTopClientsCore shopId startTs endTs orders users).2.Pairwise
      (fun r r' => r'.totalAmount ≤ r.totalAmount) ∧
    (∀ r ∈ (getShopTopClientsCore shopId startTs endTs orders users).1,
      (∃ u ∈ users, u.id = r._id ∧ r.firstname = u.profile.firstname ∧
        r.lastname = u.profile.lastname ∧ r.email = u.profile.email) ∧
      r.orderCount = ((orders.filter (matchTopClients shopId startTs endTs)).filter
        (fun o => o.buyer_id == r._id)).length ∧
      r.totalAmount = (((orders.filter (matchTopClients shopId startTs endTs)).filter
        (fun o => o.buyer_id == r._id)).map (fun o => o.amountsTotal)).sum) ∧
    (∀ r ∈ (getShopTopClientsCore shopId startTs endTs orders users).2,
      (∃ u ∈ users, u.id = r._id ∧ r.firstname = u.profile.firstname ∧
        r.lastname = u.profile.lastname ∧ r.email = u.profile.email) ∧
      r.orderCount = ((orders.filter (matchTopClients shopId startTs endTs)).filter
        (fun o => o.buyer_id == r._id)).length ∧
      r.totalAmount = (((orders.filter (matchTopClients shopId startTs endTs)).filter
        (fun o => o.buyer_id == r._id)).map (fun o => o.amountsTotal)).sum) ∧
    (∀ g ∈ (List.insertionSort (keyDesc (fun g : BuyerGroup => g.orderCount))
        (groupByBuyer (orders.filter (matchTopClients shopId startTs endTs)))).take 5,
      (∃ u ∈ users, u.id = g._id) →
      ∃ r ∈ (getShopTopClientsCore shopId startTs endTs orders users).1,
        r._id = g._id ∧ r.orderCount = g.orderCount ∧
        r.totalAmount = g.totalAmount) ∧
    (∀ g ∈ (List.insertionSort (keyDesc (fun g : BuyerGroup => g.totalAmount))
        (groupByBuyer (orders.filter (matchTopClients shopId startTs endTs)))).take 5,
      (∃ u ∈ users, u.id = g._id) →
      ∃ r ∈ (getShopTopClientsCore shopId startTs endTs orders users).2,
        r._id = g._id ∧ r.orderCount = g.orderCount ∧
        r.totalAmount = g.totalAmount) := by
  have hfil : (orders.filter (fun o => allowedStatus o.status)).filter
      (matchTopClients shopId startTs endTs)
      = orders.filter (matchTopClients shopId startTs endTs) := by
    rw [List.filter_filter]
    exact List.filter_congr (fun o _ => by
      cases h : allowedStatus o.status <;> simp [matchTopClients, h])
  refine ⟨?_, topView_length_le .., topView_length_le ..,
    topView_pairwise_count .., topView_pairwise_amount ..,
    fun r hr => topView_mem hr, fun r hr => topView_mem hr,
    fun g hg hu => topView_keeps hg hu, fun g hg hu => topView_keeps hg hu⟩
  simp only [getShopTopClientsCore]
  rw [hfil]

/-- Witness for C4: buyer 20 has two confirmed orders totalling 50, buyer 21
one delivered order of 80, buyer 22 only a pending order; `topByCount` ranks
buyer 20 first, `topByAmount` ranks buyer 21 first, the pending order is
excluded, and the lengths obey the limit. -/
theorem getShopTopClients_spec_witness :
    ((getShopTopClientsCore 1 0 100
        [⟨1, 20, 1, .confirmed, 20, []⟩, ⟨1, 20, 2, .confirmed, 30, []⟩,
         ⟨1, 21, 3, .delivered, 80, []⟩, ⟨1, 22, 4, .pending, 500, []⟩]
        [⟨20, ⟨"alice", "a", "a@x"⟩⟩, ⟨21, ⟨"bob", "b", "b@x"⟩⟩]).1.map
      (fun r => (r._id, r.orderCount))) = [(20, 2), (21, 1)] ∧
    ((getShopTopClientsCore 1 0 100
        [⟨1, 20, 1, .confirmed, 20, []⟩, ⟨1, 20, 2, .confirmed, 30, []⟩,
         ⟨1, 21, 3, .delivered, 80, []⟩, ⟨1, 22, 4, .pending, 500, []⟩]
        [⟨20, ⟨"alice", "a", "a@x"⟩⟩, ⟨21, ⟨"bob", "b", "b@x"⟩⟩]).2.map
      (fun r => (r._id, r.totalAmount))) = [(21, 80), (20, 50)] ∧
    (getShopTopClientsCore 1 0 100
        [⟨1, 20, 1, .confirmed, 20, []⟩, ⟨1, 20, 2, .confirmed, 30, []⟩,
         ⟨1, 21, 3, .delivered, 80, []⟩, ⟨1, 22, 4, .pending, 500, []⟩]
        [⟨20, ⟨"alice", "a", "a@x"⟩⟩, ⟨21, ⟨"bob", "b", "b@x"⟩⟩]).1.length ≤ 5 := by
  refine ⟨?_, ?_, (getShopTopClients_spec 1 0 100
    [⟨1, 20, 1, .confirmed, 20, []⟩, ⟨1, 20, 2, .confirmed, 30, []⟩,
     ⟨1, 21, 3, .delivered, 80, []⟩, ⟨1, 22, 4, .pending, 500, []⟩]
    [⟨20, ⟨"alice", "a", "a@x"⟩⟩, ⟨21, ⟨"bob", "b", "b@x"⟩⟩]).2.1⟩ <;>
  · norm_num +decide [getShopTopClientsCore, topView, List.insertionSort,
      List.orderedInsert, keyDesc, groupByBuyer, lookupUser, matchTopClients,
      matchShopRange, allowedStatus]

/-- One row of the `$group` stage of `getShopProductStats`. -/
structure ProductStatRow where
  _id : OID
  productName : String
  orderCount : ℕ
  totalAmount : ℚ
deriving DecidableEq, Repr

/-- Model of `$unwind: "$items"`: one row per line item of each matched order, in the
order of the orders and, within an order, of its item list. -/
def unwindItems (l : List Order) : List LineItem :=
  l.flatMap (fun o => o.items)

/-- Model of the product `$group` stage — key `$items.product_id`, fields
`productName: $first $items.name`, `orderCount: $sum 1`,
`totalAmount: $sum $items.total_price_ttc` —
one row per distinct product id occurring among the unwound line items;
`$first` takes the name snapshot of the first line item encountered for
that product (the pipeline never consults the `products` collection). -/
def groupByProduct (rows : List LineItem) : List ProductStatRow :=
  (rows.map (fun it => it.product_id)).dedup.map (fun pid =>
    { _id := pid
      productName :=
        match rows.find? (fun it => it.product_id == pid) with
        | some it => it.name
        | none => ""
      orderCount := (rows.filter (fun it => it.product_id == pid)).length
      totalAmount := ((rows.filter (fun it => it.product_id == pid)).map
        (fun it => it.total_price_ttc)).sum })

/-- Aggregation core of `getShopProductStats` (lines 200-217). -/
def getShopProductStatsCore (shopId : OID) (startTs endTs : ℤ)
    (orders : List Order) : List ProductStatRow :=
  List.insertionSort (keyDesc (fun r : ProductStatRow => r.totalAmount))
    (groupByProduct
      (unwindItems (orders.filter (matchShopRange shopId startTs endTs))))

theorem mem_groupByProduct {rows : List LineItem} {r : ProductStatRow}
    (h : r ∈ groupByProduct rows) :
    (∃ it, rows.find? (fun it => it.product_id == r._id) = some it ∧
      r.productName = it.name) ∧
    r.orderCount = (rows.filter (fun it => it.product_id == r._id)).length ∧
    r.totalAmount = ((rows.filter (fun it => it.product_id == r._id)).map
      (fun it => it.total_price_ttc)).sum := by
  rcases List.mem_map.mp h with ⟨pid, hpid, rfl⟩
  have hpid2 : pid ∈ rows.map (fun it => it.product_id) := List.mem_dedup.mp hpid
  rcases List.mem_map.mp hpid2 with ⟨it0, hit0, hid0⟩
  have hsome : (rows.find? (fun it => it.product_id == pid)).isSome := by
    rw [List.find?_isSome]
    exact ⟨it0, hit0, by simp [hid0]⟩
  rcases Option.isSome_iff_exists.mp hsome with ⟨it, hit⟩
  refine ⟨⟨it, hit, by simp [hit]⟩, rfl, rfl⟩

theorem groupByProduct_keys (rows : List LineItem) (pid : OID) :
    (∃ r ∈ groupByProduct rows, r._id = pid) ↔
      pid ∈ rows.map (fun it => it.product_id) := by
  constructor
  · rintro ⟨r, hr, rfl⟩
    rcases List.mem_map.mp hr with ⟨pid', hpid', rfl⟩
    exact List.mem_dedup.mp hpid'
  · intro hp
    exact ⟨_, List.mem_map.mpr ⟨pid, List.mem_dedup.mpr hp, rfl⟩, rfl⟩

/-- C6: the per-product statistics expand each in-range order of the shop
into one row per line item and group the rows by product id; each output
row's `productName` is the name snapshot of the first encountered line item
for that product (the pipeline never reads the `products` collection),
`orderCount` is the number of line-item occurrences, `totalAmount` is the
sum of the line items' tax-inclusive totals, the output is sorted by
`totalAmount` descending, and the output has exactly one row per product id
occurring among the expanded line items. -/
theorem getShopProductStats_spec (shopId : OID) (startTs endTs : ℤ)
    (orders : List Order) :
    (getShopProductStatsCore shopId startTs endTs orders).Pairwise
      (fun r r' => r'.totalAmount ≤ r.totalAmount) ∧
    (∀ r ∈ getShopProductStatsCore shopId startTs endTs orders,
      (∃ it, (unwindItems (orders.filter
            (matchShopRange shopId startTs endTs))).find?
          (fun it => it.product_id == r._id) = some it ∧
        r.productName = it.name) ∧
      r.orderCount = ((unwindItems (orders.filter
          (matchShopRange shopId startTs endTs))).filter
          (fun it => it.product_id == r._id)).length ∧
      r.totalAmount = (((unwindItems (orders.filter
          (matchShopRange shopId startTs endTs))).filter
          (fun it => it.product_id == r._id)).map
          (fun it => it.total_price_ttc)).sum) ∧
    (∀ pid : OID,
      (∃ r ∈ getShopProductStatsCore shopId startTs endTs orders, r._id = pid)
        ↔ pid ∈ (unwindItems (orders.filter
            (matchShopRange shopId startTs endTs))).map
            (fun it => it.product_id)) := by
  refine ⟨?_, ?_, ?_⟩
  · exact List.sorted_insertionSort
      (keyDesc (fun r : ProductStatRow => r.totalAmount)) _
  · intro r hr
    exact mem_groupByProduct
      ((List.mem_insertionSort
        (keyDesc (fun r : ProductStatRow => r.totalAmount))).mp hr)
  · intro pid
    rw [← groupByProduct_keys]
    constructor
    · rintro ⟨r, hr, hid⟩
      exact ⟨r, (List.mem_insertionSort
        (keyDesc (fun r : ProductStatRow => r.totalAmount))).mp hr, hid⟩
    · rintro ⟨r, hr, hid⟩
      exact ⟨r, (List.mem_insertionSort
        (keyDesc (fun r : ProductStatRow => r.totalAmount))).mpr hr, hid⟩

/-- Witness for C6: product 7 appears in two orders, first under the name
snapshot "Old" and later under "New"; the report keeps "Old", counts two
line-item occurrences, sums 10 + 15 = 25, and lists product 8 (amount 100)
first since 100 > 25. -/
theorem getShopProductStats_spec_witness :
    ((getShopProductStatsCore 1 0 100
        [⟨1, 30, 1, .pending, 0, [⟨7, "Old", 10⟩, ⟨8, "Gadget", 100⟩]⟩,
         ⟨1, 31, 2, .confirmed, 0, [⟨7, "New", 15⟩]⟩]).map
      (fun r => (r._id, r.productName, r.orderCount, r.totalAmount)))
      = [(8, "Gadget", 1, 100), (7, "Old", 2, 25)] ∧
    (getShopProductStatsCore 1 0 100
        [⟨1, 30, 1, .pending, 0, [⟨7, "Old", 10⟩, ⟨8, "Gadget", 100⟩]⟩,
         ⟨1, 31, 2, .confirmed, 0, [⟨7, "New", 15⟩]⟩]).Pairwise
      (fun r r' => r'.totalAmount ≤ r.totalAmount) := by
  refine ⟨?_, (getShopProductStats_spec 1 0 100
    [⟨1, 30, 1, .pending, 0, [⟨7, "Old", 10⟩, ⟨8, "Gadget", 100⟩]⟩,
     ⟨1, 31, 2, .confirmed, 0, [⟨7, "New", 15⟩]⟩]).1⟩
  norm_num +decide [getShopProductStatsCore, groupByProduct, unwindItems,
    List.insertionSort, List.orderedInsert, keyDesc, matchShopRange]

/-- One row of the `$group` stage of `getShopCategoryStats`; the group key
`_id` is `product.category_id`, which may be null. -/
structure CategoryStatRow where
  _id : Option OID
  categoryName : String
  orderCount : ℕ
  totalAmount : ℚ
deriving DecidableEq, Repr

/-- A pipeline row of `getShopCategoryStats` after `$unwind: "$items"`, the
product `$lookup` with plain `$unwind: "$product"` (inner join), and the
category `$lookup` with `$unwind: {path: "$category",
preserveNullAndEmptyArrays: true}` (left join): `catName` is `none` when the
product's `category_id` is null or when no category record matches it. -/
structure CatRow where
  item : LineItem
  category_id : Option OID
  catName : Option String
deriving DecidableEq, Repr

/-- The two `$lookup`/`$unwind` pairs of `getShopCategoryStats`
(lines 251-268) applied to one unwound line item: the product join is an
inner join (`$unwind: "$product"` drops rows with no matching product), the
category join preserves unmatched rows. -/
def joinProductCategory (products : List Product) (categories : List Category)
    (it : LineItem) : Option CatRow :=
  (products.find? (fun p => p.id == it.product_id)).map (fun p =>
    { item := it
      category_id := p.category_id
      catName := p.category_id.bind (fun cid =>
        (categories.find? (fun c => c.id == cid)).map (fun c => c.name)) })

/-- Model of the category `$group` stage: key `$product.category_id`,
fields `categoryName: $first of $ifNull [$category.name, "Sans catégorie"]`,
`orderCount: $sum 1`, `totalAmount: $sum $items.total_price_ttc`. -/
def groupByCategory (rows : List CatRow) : List CategoryStatRow :=
  (rows.map (fun w => w.category_id)).dedup.map (fun cid =>
    { _id := cid
      categoryName :=
        match rows.find? (fun w => w.category_id == cid) with
        | some w => w.catName.getD "Sans catégorie"
        | none => "Sans catégorie"
      orderCount := (rows.filter (fun w => w.category_id == cid)).length
      totalAmount := ((rows.filter (fun w => w.category_id == cid)).map
        (fun w => w.item.total_price_ttc)).sum })

/-- Aggregation core of `getShopCategoryStats` (lines 243-278). -/
def getShopCategoryStatsCore (shopId : OID) (startTs endTs : ℤ)
    (orders : List Order) (products : List Product)
    (categories : List Category) : List CategoryStatRow :=
  List.insertionSort (keyDesc (fun r : CategoryStatRow => r.totalAmount))
    (groupByCategory
      ((unwindItems (orders.filter (matchShopRange shopId startTs endTs))).filterMap
        (joinProductCategory products categories)))

theorem joinProductCategory_some {products : List Product}
    {categories : List Category} {it : LineItem} {w : CatRow}
    (h : joinProductCategory products categories it = some w) :
    w.item = it ∧
    w.catName = w.category_id.bind (fun cid =>
      (categories.find? (fun c => c.id == cid)).map (fun c => c.name)) := by
  unfold joinProductCategory at h
  cases hf : products.find? (fun p => p.id == it.product_id) with
  | none => rw [hf] at h; cases h
  | some p =>
    rw [hf] at h
    cases h
    exact ⟨rfl, rfl⟩

theorem mem_groupByCategory {rows : List CatRow} {r : CategoryStatRow}
    (h : r ∈ groupByCategory rows) :
    (∃ w, rows.find? (fun w => w.category_id == r._id) = some w ∧
      r.categoryName = w.catName.getD "Sans catégorie") ∧
    r.orderCount = (rows.filter (fun w => w.category_id == r._id)).length ∧
    r.totalAmount = ((rows.filter (fun w => w.category_id == r._id)).map
      (fun w => w.item.total_price_ttc)).sum := by
  rcases List.mem_map.mp h with ⟨cid, hcid, rfl⟩
  have hcid2 : cid ∈ rows.map (fun w => w.category_id) := List.mem_dedup.mp hcid
  rcases List.mem_map.mp hcid2 with ⟨w0, hw0, hwid⟩
  have hsome : (rows.find? (fun w => w.category_id == cid)).isSome := by
    rw [List.find?_isSome]
    exact ⟨w0, hw0, by simp [hwid]⟩
  rcases Option.isSome_iff_exists.mp hsome with ⟨w, hw⟩
  refine ⟨⟨w, hw, by simp [hw]⟩, rfl, rfl⟩

theorem groupByCategory_keys (rows : List CatRow) (cid : Option OID) :
    (∃ r ∈ groupByCategory rows, r._id = cid) ↔
      cid ∈ rows.map (fun w => w.category_id) := by
  constructor
  · rintro ⟨r, hr, rfl⟩
    rcases List.mem_map.mp hr with ⟨cid', hcid', rfl⟩
    exact List.mem_dedup.mp hcid'
  · intro hp
    exact ⟨_, List.mem_map.mpr ⟨cid, List.mem_dedup.mpr hp, rfl⟩, rfl⟩

theorem groupByCategory_map_id (rows : List CatRow) :
    (groupByCategory rows).map (fun r => r._id)
      = (rows.map (fun w => w.category_id)).dedup := by
  unfold groupByCategory
  rw [List.map_map]
  exact List.map_id _

theorem getShopCategoryStatsCore_keys_nodup (shopId : OID) (startTs endTs : ℤ)
    (orders : List Order) (products : List Product)
    (categories : List Category) :
    ((getShopCategoryStatsCore shopId startTs endTs orders products
      categories).map (fun r => r._id)).Nodup := by
  unfold getShopCategoryStatsCore
  have hperm := (List.perm_insertionSort
    (keyDesc (fun r : CategoryStatRow => r.totalAmount))
    (groupByCategory
      ((unwindItems (orders.filter (matchShopRange shopId startTs endTs))).filterMap
        (joinProductCategory products categories)))).map (fun r => r._id)
  rw [(hperm.nodup_iff), groupByCategory_map_id]
  exact List.nodup_dedup _

/-- Counterexample to C2 as stated: one in-range order with two line items —
product 100 references category 500 whose record is missing, product 101 has
a null category id.  The report yields TWO rows, keyed `some 500` and
`none`, both labelled "Sans catégorie": line items whose category cannot be
resolved are NOT aggregated together into one single bucket, because the
group key is `product.category_id`, not the resolved category. -/
theorem getShopCategoryStats_two_uncategorized_rows :
    ((getShopCategoryStatsCore 1 0 100
        [⟨1, 40, 1, .pending, 0, [⟨100, "x", 10⟩, ⟨101, "y", 10⟩]⟩]
        [⟨100, some 500⟩, ⟨101, none⟩] []).map
      (fun r => (r._id, r.categoryName)))
      = [(some 500, "Sans catégorie"), (none, "Sans catégorie")] ∧
    (getShopCategoryStatsCore 1 0 100
        [⟨1, 40, 1, .pending, 0, [⟨100, "x", 10⟩, ⟨101, "y", 10⟩]⟩]
        [⟨100, some 500⟩, ⟨101, none⟩] []).length = 2 := by
  constructor <;>
  · norm_num +decide [getShopCategoryStatsCore, groupByCategory, unwindItems,
      joinProductCategory, List.insertionSort, List.orderedInsert, keyDesc,
      matchShopRange, List.filterMap_cons]

/-- C2 (amended): every expanded line item that survives the product join
lands in some bucket keyed by its product's `category_id` (none are
dropped); bucket keys are pairwise distinct, so in particular all line items
with a null category id share one single null-keyed bucket; a bucket whose
key is null, or whose key references a missing category record, is labelled
with the sentinel "Sans catégorie", while a resolvable key is labelled with
the category's name — so line items with distinct unresolvable non-null
category ids end up in distinct sentinel-labelled buckets rather than one. -/
theorem getShopCategoryStats_uncategorized (shopId : OID) (startTs endTs : ℤ)
    (orders : List Order) (products : List Product)
    (categories : List Category) :
    (∀ w ∈ (unwindItems (orders.filter
        (matchShopRange shopId startTs endTs))).filterMap
        (joinProductCategory products categories),
      ∃ r ∈ getShopCategoryStatsCore shopId startTs endTs orders products
        categories, r._id = w.category_id) ∧
    ((getShopCategoryStatsCore shopId startTs endTs orders products
      categories).map (fun r => r._id)).Nodup ∧
    (∀ r ∈ getShopCategoryStatsCore shopId startTs endTs orders products
        categories,
      (r._id = none → r.categoryName = "Sans catégorie") ∧
      (∀ cid, r._id = some cid →
        categories.find? (fun c => c.id == cid) = none →
        r.categoryName = "Sans catégorie") ∧
      (∀ cid c, r._id = some cid →
        categories.find? (fun c => c.id == cid) = some c →
        r.categoryName = c.name) ∧
      r.orderCount = (((unwindItems (orders.filter
          (matchShopRange shopId startTs endTs))).filterMap
          (joinProductCategory products categories)).filter
          (fun w => w.category_id == r._id)).length ∧
      r.totalAmount = ((((unwindItems (orders.filter
          (matchShopRange shopId startTs endTs))).filterMap
          (joinProductCategory products categories)).filter
          (fun w => w.category_id == r._id)).map
          (fun w => w.item.total_price_ttc)).sum) := by
  refine ⟨?_, getShopCategoryStatsCore_keys_nodup .., ?_⟩
  · intro w hw
    have h1 := (groupByCategory_keys
      ((unwindItems (orders.filter
        (matchShopRange shopId startTs endTs))).filterMap
        (joinProductCategory products categories)) w.category_id).mpr
      (List.mem_map.mpr ⟨w, hw, rfl⟩)
    rcases h1 with ⟨r, hr, hid⟩
    exact ⟨r, (List.mem_insertionSort
      (keyDesc (fun r : CategoryStatRow => r.totalAmount))).mpr hr, hid⟩
  · intro r hr
    have hrg : r ∈ groupByCategory
        ((unwindItems (orders.filter
          (matchShopRange shopId startTs endTs))).filterMap
          (joinProductCategory products categories)) :=
      (List.mem_insertionSort
        (keyDesc (fun r : CategoryStatRow => r.totalAmount))).mp hr
    obtain ⟨⟨w, hwfind, hname⟩, hcnt, hamt⟩ := mem_groupByCategory hrg
    have hwmem : w ∈ (unwindItems (orders.filter
        (matchShopRange shopId startTs endTs))).filterMap
        (joinProductCategory products categories) :=
      List.mem_of_find?_eq_some hwfind
    have hwid : w.category_id = r._id := by
      have := List.find?_some hwfind
      simpa [beq_iff_eq] using this
    rcases List.mem_filterMap.mp hwmem with ⟨it, _hit, hjoin⟩
    obtain ⟨_, hcoh⟩ := joinProductCategory_some hjoin
    refine ⟨?_, ?_, ?_, hcnt, hamt⟩
    · intro hnone
      rw [hname, hcoh, hwid, hnone]
      rfl
    · intro cid hcid hmiss
      rw [hname, hcoh, hwid, hcid]
      simp [hmiss]
    · intro cid c hcid hfound
      rw [hname, hcoh, hwid, hcid]
      simp [hfound]

/-- Witness for the amended C2: on the counterexample data the null-keyed
bucket exists and carries the sentinel label. -/
theorem getShopCategoryStats_uncategorized_witness :
    (⟨none, "Sans catégorie", 1, 10⟩ : CategoryStatRow) ∈
      getShopCategoryStatsCore 1 0 100
        [⟨1, 40, 1, .pending, 0, [⟨100, "x", 10⟩, ⟨101, "y", 10⟩]⟩]
        [⟨100, some 500⟩, ⟨101, none⟩] [] ∧
    (⟨none, "Sans catégorie", 1, 10⟩ : CategoryStatRow).categoryName
      = "Sans catégorie" := by
  have hmem : (⟨none, "Sans catégorie", 1, 10⟩ : CategoryStatRow) ∈
      getShopCategoryStatsCore 1 0 100
        [⟨1, 40, 1, .pending, 0, [⟨100, "x", 10⟩, ⟨101, "y", 10⟩]⟩]
        [⟨100, some 500⟩, ⟨101, none⟩] [] := by
    norm_num +decide [getShopCategoryStatsCore, groupByCategory, unwindItems,
      joinProductCategory, List.insertionSort, List.orderedInsert, keyDesc,
      matchShopRange, List.filterMap_cons]
  exact ⟨hmem, ((getShopCategoryStats_uncategorized 1 0 100
    [⟨1, 40, 1, .pending, 0, [⟨100, "x", 10⟩, ⟨101, "y", 10⟩]⟩]
    [⟨100, some 500⟩, ⟨101, none⟩] []).2.2 _ hmem).1 rfl⟩

theorem join_filter_items (products : List Product)
    (categories : List Category) (its : List LineItem) :
    (its.filter (fun it =>
      (products.find? (fun p => p.id == it.product_id)).isSome)).filterMap
      (joinProductCategory products categories)
      = its.filterMap (joinProductCategory products categories) := by
  induction its with
  | nil => rfl
  | cons it t ih =>
    by_cases h : (products.find? (fun p => p.id == it.product_id)).isSome
    · rw [List.filter_cons_of_pos (by simpa using h),
        List.filterMap_cons, List.filterMap_cons, ih]
    · have hnone : products.find? (fun p => p.id == it.product_id) = none :=
        Option.not_isSome_iff_eq_none.mp h
      rw [List.filter_cons_of_neg (by simpa using h), List.filterMap_cons, ih]
      simp [joinProductCategory, hnone]

theorem unwind_join_filtered (products : List Product)
    (categories : List Category) (l : List Order) :
    (unwindItems (l.map (fun o => { o with items := o.items.filter (fun it =>
      (products.find? (fun p => p.id == it.product_id)).isSome) }))).filterMap
      (joinProductCategory products categories)
    = (unwindItems l).filterMap (joinProductCategory products categories) := by
  induction l with
  | nil => rfl
  | cons o t ih =>
    rw [List.map_cons]
    simp only [unwindItems, List.flatMap_cons, List.filterMap_append] at ih ⊢
    rw [join_filter_items, ih]

/-- C10: in the per-category statistics, a line item whose `product_id`
matches no product record is excluded entirely — removing all such line
items from the orders leaves the report unchanged, and a report whose only
line item references a missing product is empty (no bucket at all, not even
an uncategorized one), because `$unwind: "$product"` without
`preserveNullAndEmptyArrays` is an inner join. -/
theorem getShopCategoryStats_drops_unmatched_products (shopId : OID)
    (startTs endTs : ℤ) (orders : List Order) (products : List Product)
    (categories : List Category) :
    getShopCategoryStatsCore shopId startTs endTs
        (orders.map (fun o => { o with items := o.items.filter (fun it =>
          (products.find? (fun p => p.id == it.product_id)).isSome) }))
        products categories
      = getShopCategoryStatsCore shopId startTs endTs orders products
          categories ∧
    getShopCategoryStatsCore 1 0 100
        [⟨1, 50, 1, .pending, 0, [⟨999, "ghost", 10⟩]⟩] [] [] = [] := by
  constructor
  · unfold getShopCategoryStatsCore
    rw [List.filter_map]
    have hcomp : (matchShopRange shopId startTs endTs) ∘ (fun o =>
        { o with items := o.items.filter (fun it =>
          (products.find? (fun p => p.id == it.product_id)).isSome) })
        = matchShopRange shopId startTs endTs := rfl
    rw [hcomp, unwind_join_filtered]
  · norm_num +decide [getShopCategoryStatsCore, groupByCategory, unwindItems,
      joinProductCategory, List.insertionSort, keyDesc, matchShopRange,
      List.filterMap_cons]

/-- Response shape of `getShopGlobalStats`. -/
structure GlobalStats where
  totalOrders : ℕ
  ordersDiff : ℚ
  totalAmount : ℚ
  amountDiff : ℚ
  avgRating : ℚ
  countRating : ℕ
  totalCustomers : ℕ
  customersDiff : ℚ
deriving DecidableEq, Repr

/-- Model of `Order.distinct('buyer_id', filter)`: the distinct buyer ids of the
matching orders. -/
def distinctBuyers (l : List Order) : List OID :=
  (l.map (fun o => o.buyer_id)).dedup

/-- Aggregation core of `getShopGlobalStats` (lines 314-382): totals for the
target-year and previous-year windows, distinct-buyer counts for both,
percentage diffs via the shared helper, and the shop's rating fields with
the `shopData?.x || 0` defaulting. -/
def getShopGlobalStatsCore (shopId : OID)
    (startTs endTs startPrev endPrev : ℤ) (orders : List Order)
    (shopData : Option Shop) : GlobalStats :=
  let currentStats :=
    summaryAgg (orders.filter (matchShopRange shopId startTs endTs))
  let prevStats :=
    summaryAgg (orders.filter (matchShopRange shopId startPrev endPrev))
  let currentCustomers :=
    distinctBuyers (orders.filter (matchShopRange shopId startTs endTs))
  let prevCustomers :=
    distinctBuyers (orders.filter (matchShopRange shopId startPrev endPrev))
  { totalOrders := (totalsOf currentStats).1
    ordersDiff := calculatePercentageDiff ((totalsOf currentStats).1 : ℚ)
      ((totalsOf prevStats).1 : ℚ)
    totalAmount := (totalsOf currentStats).2
    amountDiff := calculatePercentageDiff (totalsOf currentStats).2
      (totalsOf prevStats).2
    avgRating := match shopData with
      | some s => s.avg_rating
      | none => 0
    countRating := match shopData with
      | some s => s.count_rating
      | none => 0
    totalCustomers := currentCustomers.length
    customersDiff := calculatePercentageDiff (currentCustomers.length : ℚ)
      (prevCustomers.length : ℚ) }

/-- JS `new Date(startDate)` / `end.setHours(23,59,59,999)` resolution is
passed abstractly; the wrapper mirrors the guards of `getShopOrderSummary`
(lines 24-25): `!shopId`, then `!startDate || !endDate` (absent or empty
string is falsy). -/
def getShopOrderSummary (shopId : Option OID)
    (startDate endDate : Option String)
    (resolveRange : String → String → ℤ × ℤ) (orders : List Order) :
    Except String OrderSummary :=
  match shopId with
  | none => .error "No shop linked to this account"
  | some sid =>
    match startDate, endDate with
    | some sd, some ed =>
      if sd.isEmpty || ed.isEmpty then
        .error "startDate and endDate are required"
      else
        .ok (getShopOrderSummaryCore sid (resolveRange sd ed).1
          (resolveRange sd ed).2 orders)
    | _, _ => .error "startDate and endDate are required"

/-- Validation wrapper of `getShopTopClients` (lines 90-91). -/
def getShopTopClients (shopId : Option OID)
    (startDate endDate : Option String)
    (resolveRange : String → String → ℤ × ℤ) (orders : List Order)
    (users : List User) :
    Except String (List TopClientRow × List TopClientRow) :=
  match shopId with
  | none => .error "No shop linked to this account"
  | some sid =>
    match startDate, endDate with
    | some sd, some ed =>
      if sd.isEmpty || ed.isEmpty then
        .error "startDate and endDate are required"
      else
        .ok (getShopTopClientsCore sid (resolveRange sd ed).1
          (resolveRange sd ed).2 orders users)
    | _, _ => .error "startDate and endDate are required"

/-- Validation wrapper of `getShopProductStats` (lines 193-194): the guards
are `if (!shopId)` and `if (!year)`; any non-empty year string passes and
the window built from it (`new Date(\`${year}-01-01\`)` etc., modelled by
`resolveWindow`) is used for the aggregation. -/
def getShopProductStats (shopId : Option OID) (year : Option String)
    (resolveWindow : String → ℤ × ℤ) (orders : List Order) :
    Except String (List ProductStatRow) :=
  match shopId with
  | none => .error "No shop linked to this account"
  | some sid =>
    match year with
    | none => .error "Year is required"
    | some y =>
      if y.isEmpty then .error "Year is required"
      else .ok (getShopProductStatsCore sid (resolveWindow y).1
        (resolveWindow y).2 orders)

/-- Validation wrapper of `getShopCategoryStats` (lines 236-237). -/
def getShopCategoryStats (shopId : Option OID) (year : Option String)
    (resolveWindow : String → ℤ × ℤ) (orders : List Order)
    (products : List Product) (categories : List Category) :
    Except String (List CategoryStatRow) :=
  match shopId with
  | none => .error "No shop linked to this account"
  | some sid =>
    match year with
    | none => .error "Year is required"
    | some y =>
      if y.isEmpty then .error "Year is required"
      else .ok (getShopCategoryStatsCore sid (resolveWindow y).1
        (resolveWindow y).2 orders products categories)

/-- Validation wrapper of `getShopGlobalStats` (lines 300-301); the previous
year's window (`parseInt(year) - 1`) is modelled by `resolvePrevWindow`. -/
def getShopGlobalStats (shopId : Option OID) (year : Option String)
    (resolveWindow resolvePrevWindow : String → ℤ × ℤ)
    (orders : List Order) (shopData : Option Shop) :
    Except String GlobalStats :=
  match shopId with
  | none => .error "No shop linked to this account"
  | some sid =>
    match year with
    | none => .error "Year is required"
    | some y =>
      if y.isEmpty then .error "Year is required"
      else .ok (getShopGlobalStatsCore sid (resolveWindow y).1
        (resolveWindow y).2 (resolvePrevWindow y).1 (resolvePrevWindow y).2
        orders shopData)

/-- Modelled from the spec: §4.1's "numeric year" notion ("caller supplies a
4-digit `year` ... Missing or non-numeric year → validation failure"); the
source itself never performs a numeric check on the year. -/
def isNumericYear (s : String) : Bool :=
  !s.isEmpty && s.toList.all Char.isDigit

/-- C7: the global year-over-year report returns the current window's order
count and summed amount; counts distinct buyers for both windows,
deduplicating repeat buyers (the customer totals are the cardinalities of
the buyer-id sets); computes `ordersDiff`, `amountDiff` and `customersDiff`
by applying the shared percentage-diff helper to the paired
current/previous values; and returns the shop's stored average rating and
rating count unchanged, independent of the year windows. -/
theorem getShopGlobalStats_spec (shopId : OID)
    (startTs endTs startPrev endPrev : ℤ) (orders : List Order)
    (shopData : Option Shop) :
    (getShopGlobalStatsCore shopId startTs endTs startPrev endPrev orders
      shopData).totalOrders
      = (orders.filter (matchShopRange shopId startTs endTs)).length ∧
    (getShopGlobalStatsCore shopId startTs endTs startPrev endPrev orders
      shopData).totalAmount
      = ((orders.filter (matchShopRange shopId startTs endTs)).map
          (fun o => o.amountsTotal)).sum ∧
    (getShopGlobalStatsCore shopId startTs endTs startPrev endPrev orders
      shopData).totalCustomers
      = ((orders.filter (matchShopRange shopId startTs endTs)).map
          (fun o => o.buyer_id)).toFinset.card ∧
    (getShopGlobalStatsCore shopId startTs endTs startPrev endPrev orders
      shopData).ordersDiff
      = calculatePercentageDiff
          ((orders.filter (matchShopRange shopId startTs endTs)).length : ℚ)
          ((orders.filter
            (matchShopRange shopId startPrev endPrev)).length : ℚ) ∧
    (getShopGlobalStatsCore shopId startTs endTs startPrev endPrev orders
      shopData).amountDiff
      = calculatePercentageDiff
          (((orders.filter (matchShopRange shopId startTs endTs)).map
            (fun o => o.amountsTotal)).sum)
          (((orders.filter (matchShopRange shopId startPrev endPrev)).map
            (fun o => o.amountsTotal)).sum) ∧
    (getShopGlobalStatsCore shopId startTs endTs startPrev endPrev orders
      shopData).customersDiff
      = calculatePercentageDiff
          ((((orders.filter (matchShopRange shopId startTs endTs)).map
            (fun o => o.buyer_id)).toFinset.card : ℚ))
          ((((orders.filter (matchShopRange shopId startPrev endPrev)).map
            (fun o => o.buyer_id)).toFinset.card : ℚ)) ∧
    (∀ s, shopData = some s →
      (getShopGlobalStatsCore shopId startTs endTs startPrev endPrev orders
        shopData).avgRating = s.avg_rating ∧
      (getShopGlobalStatsCore shopId startTs endTs startPrev endPrev orders
        shopData).countRating = s.count_rating) := by
  refine ⟨?_, ?_, ?_, ?_, ?_, ?_, ?_⟩
  · simp [getShopGlobalStatsCore, totalsOf_summaryAgg]
  · simp [getShopGlobalStatsCore, totalsOf_summaryAgg]
  · simp [getShopGlobalStatsCore, distinctBuyers, List.card_toFinset]
  · simp [getShopGlobalStatsCore, totalsOf_summaryAgg]
  · simp [getShopGlobalStatsCore, totalsOf_summaryAgg]
  · simp [getShopGlobalStatsCore, distinctBuyers, List.card_toFinset]
  · rintro s rfl
    exact ⟨rfl, rfl⟩

/-- Witness for C7: five current-year orders by buyer 9, no previous-year
orders, rating 7/2 with 12 ratings: one distinct customer, `ordersDiff`
= 100, and the rating fields pass through. -/
theorem getShopGlobalStats_spec_witness :
    (getShopGlobalStatsCore 1 0 100 (-200) (-101)
      [⟨1, 9, 1, .pending, 10, []⟩, ⟨1, 9, 2, .confirmed, 10, []⟩,
       ⟨1, 9, 3, .confirmed, 10, []⟩, ⟨1, 9, 4, .shipped, 10, []⟩,
       ⟨1, 9, 5, .delivered, 10, []⟩] (some ⟨7/2, 12⟩)).totalCustomers = 1 ∧
    (getShopGlobalStatsCore 1 0 100 (-200) (-101)
      [⟨1, 9, 1, .pending, 10, []⟩, ⟨1, 9, 2, .confirmed, 10, []⟩,
       ⟨1, 9, 3, .confirmed, 10, []⟩, ⟨1, 9, 4, .shipped, 10, []⟩,
       ⟨1, 9, 5, .delivered, 10, []⟩] (some ⟨7/2, 12⟩)).ordersDiff = 100 ∧
    (getShopGlobalStatsCore 1 0 100 (-200) (-101)
      [⟨1, 9, 1, .pending, 10, []⟩, ⟨1, 9, 2, .confirmed, 10, []⟩,
       ⟨1, 9, 3, .confirmed, 10, []⟩, ⟨1, 9, 4, .shipped, 10, []⟩,
       ⟨1, 9, 5, .delivered, 10, []⟩] (some ⟨7/2, 12⟩)).avgRating = 7/2 ∧
    (getShopGlobalStatsCore 1 0 100 (-200) (-101)
      [⟨1, 9, 1, .pending, 10, []⟩, ⟨1, 9, 2, .confirmed, 10, []⟩,
       ⟨1, 9, 3, .confirmed, 10, []⟩, ⟨1, 9, 4, .shipped, 10, []⟩,
       ⟨1, 9, 5, .delivered, 10, []⟩] (some ⟨7/2, 12⟩)).countRating = 12 := by
  obtain ⟨h1, h2, h3, h4, h5, h6, h7⟩ := getShopGlobalStats_spec 1 0 100
    (-200) (-101)
    [⟨1, 9, 1, .pending, 10, []⟩, ⟨1, 9, 2, .confirmed, 10, []⟩,
     ⟨1, 9, 3, .confirmed, 10, []⟩, ⟨1, 9, 4, .shipped, 10, []⟩,
     ⟨1, 9, 5, .delivered, 10, []⟩] (some ⟨7/2, 12⟩)
  obtain ⟨ha, hc⟩ := h7 ⟨7/2, 12⟩ rfl
  refine ⟨?_, ?_, ha, hc⟩ <;>
  · norm_num +decide [getShopGlobalStatsCore, distinctBuyers, summaryAgg,
      totalsOf, matchShopRange, calculatePercentageDiff]

/-- Counterexample to C3 as stated: the year parameter "abc" is non-empty
but non-numeric; the only year validation the source performs is
`if (!year)`, so none of the three year-mode operations fails with a
validation error — each proceeds to aggregate over the order data (the
product report below even returns a non-empty result computed from an
order). -/
theorem yearValidation_accepts_non_numeric :
    isNumericYear "abc" = false ∧
    getShopProductStats (some 1) (some "abc") (fun _ => (0, 100))
        [⟨1, 30, 1, .pending, 0, [⟨7, "w", 10⟩]⟩]
      = .ok [⟨7, "w", 1, 10⟩] ∧
    getShopCategoryStats (some 1) (some "abc") (fun _ => (0, 100)) [] [] []
      = .ok [] ∧
    getShopGlobalStats (some 1) (some "abc") (fun _ => (0, 100))
        (fun _ => (-200, -101)) [] none
      = .ok ⟨0, 0, 0, 0, 0, 0, 0, 0⟩ := by
  refine ⟨by decide, ?_, ?_, ?_⟩
  · norm_num +decide [getShopProductStats, getShopProductStatsCore,
      groupByProduct, unwindItems, List.insertionSort, List.orderedInsert,
      keyDesc, matchShopRange]
  · norm_num +decide [getShopCategoryStats, getShopCategoryStatsCore,
      groupByCategory, unwindItems, joinProductCategory, List.insertionSort,
      keyDesc, matchShopRange, List.filterMap_cons]
  · norm_num +decide [getShopGlobalStats, getShopGlobalStatsCore,
      distinctBuyers, summaryAgg, totalsOf, matchShopRange,
      calculatePercentageDiff]

/-- C3 (amended): a missing year — parameter absent, or present as the empty
string — is rejected by the product-stats, category-stats and global-stats
operations with the validation error "Year is required" and no aggregation
over the order data is performed; this `if (!year)` guard is the only year
validation, so any non-empty year string (numeric or not) passes it and the
aggregation core is invoked on the window resolved from it. -/
theorem yearValidation_spec (shopId : OID) (year : Option String)
    (resolveWindow resolvePrevWindow : String → ℤ × ℤ) (orders : List Order)
    (products : List Product) (categories : List Category)
    (shopData : Option Shop) :
    ((year = none ∨ year = some "") →
      getShopProductStats (some shopId) year resolveWindow orders
        = .error "Year is required" ∧
      getShopCategoryStats (some shopId) year resolveWindow orders products
        categories = .error "Year is required" ∧
      getShopGlobalStats (some shopId) year resolveWindow resolvePrevWindow
        orders shopData = .error "Year is required") ∧
    (∀ y, year = some y → y.isEmpty = false →
      getShopProductStats (some shopId) year resolveWindow orders
        = .ok (getShopProductStatsCore shopId (resolveWindow y).1
            (resolveWindow y).2 orders) ∧
      getShopCategoryStats (some shopId) year resolveWindow orders products
        categories
        = .ok (getShopCategoryStatsCore shopId (resolveWindow y).1
            (resolveWindow y).2 orders products categories) ∧
      getShopGlobalStats (some shopId) year resolveWindow resolvePrevWindow
        orders shopData
        = .ok (getShopGlobalStatsCore shopId (resolveWindow y).1
            (resolveWindow y).2 (resolvePrevWindow y).1
            (resolvePrevWindow y).2 orders shopData)) := by
  constructor
  · rintro (rfl | rfl) <;>
      exact ⟨rfl, rfl, rfl⟩
  · rintro y rfl hy
    refine ⟨?_, ?_, ?_⟩ <;>
      simp [getShopProductStats, getShopCategoryStats, getShopGlobalStats, hy]

/-- Witness for the amended C3 at concrete inputs: the empty year is
rejected, and the non-empty year "2024" passes the guard. -/
theorem yearValidation_spec_witness :
    getShopProductStats (some 1) (some "") (fun _ => (0, 100)) []
      = .error "Year is required" ∧
    getShopProductStats (some 1) (some "2024") (fun _ => (0, 100)) []
      = .ok (getShopProductStatsCore 1 0 100 []) := by
  constructor
  · exact ((yearValidation_spec 1 (some "") (fun _ => (0, 100))
      (fun _ => (0, 100)) [] [] [] none).1 (Or.inr rfl)).1
  · have h := ((yearValidation_spec 1 (some "2024") (fun _ => (0, 100))
      (fun _ => (0, 100)) [] [] [] none).2 "2024" rfl (by decide)).1
    simpa using h

theorem filter_and_empty {α : Type} {l : List α} {p q : α → Bool}
    (h : l.filter p = []) : l.filter (fun a => p a && q a) = [] := by
  rw [List.filter_eq_nil_iff] at h ⊢
  intro a ha hpq
  rw [Bool.and_eq_true] at hpq
  exact h a ha hpq.1

/-- C8: with valid parameters (shop linked, non-empty date and year
parameters) and no orders of the shop in any involved window, none of the
five reports fails: the order summary succeeds with all-zero fields, the
top-clients report succeeds with two empty rankings, the product and
category reports succeed with empty sequences, and the global report
succeeds with zero order count, amount, customer count and zero diffs. -/
theorem emptyWindow_spec (shopId : OID) (sd ed y : String)
    (resolveRange : String → String → ℤ × ℤ)
    (resolveWindow resolvePrevWindow : String → ℤ × ℤ)
    (orders : List Order) (users : List User) (products : List Product)
    (categories : List Category) (shopData : Option Shop)
    (hsd : sd.isEmpty = false) (hed : ed.isEmpty = false)
    (hy : y.isEmpty = false)
    (hrange : orders.filter (matchShopRange shopId (resolveRange sd ed).1
      (resolveRange sd ed).2) = [])
    (hyear : orders.filter (matchShopRange shopId (resolveWindow y).1
      (resolveWindow y).2) = [])
    (hprev : orders.filter (matchShopRange shopId (resolvePrevWindow y).1
      (resolvePrevWindow y).2) = []) :
    getShopOrderSummary (some shopId) (some sd) (some ed) resolveRange orders
      = .ok ⟨0, 0, 0, 0⟩ ∧
    getShopTopClients (some shopId) (some sd) (some ed) resolveRange orders
      users = .ok ([], []) ∧
    getShopProductStats (some shopId) (some y) resolveWindow orders
      = .ok [] ∧
    getShopCategoryStats (some shopId) (some y) resolveWindow orders products
      categories = .ok [] ∧
    (getShopGlobalStatsCore shopId (resolveWindow y).1 (resolveWindow y).2
      (resolvePrevWindow y).1 (resolvePrevWindow y).2 orders
      shopData).totalOrders = 0 ∧
    (getShopGlobalStatsCore shopId (resolveWindow y).1 (resolveWindow y).2
      (resolvePrevWindow y).1 (resolvePrevWindow y).2 orders
      shopData).totalAmount = 0 ∧
    (getShopGlobalStatsCore shopId (resolveWindow y).1 (resolveWindow y).2
      (resolvePrevWindow y).1 (resolvePrevWindow y).2 orders
      shopData).totalCustomers = 0 ∧
    (getShopGlobalStatsCore shopId (resolveWindow y).1 (resolveWindow y).2
      (resolvePrevWindow y).1 (resolvePrevWindow y).2 orders
      shopData).ordersDiff = 0 ∧
    (getShopGlobalStatsCore shopId (resolveWindow y).1 (resolveWindow y).2
      (resolvePrevWindow y).1 (resolvePrevWindow y).2 orders
      shopData).amountDiff = 0 ∧
    (getShopGlobalStatsCore shopId (resolveWindow y).1 (resolveWindow y).2
      (resolvePrevWindow y).1 (resolvePrevWindow y).2 orders
      shopData).customersDiff = 0 ∧
    getShopGlobalStats (some shopId) (some y) resolveWindow resolvePrevWindow
      orders shopData
      = .ok (getShopGlobalStatsCore shopId (resolveWindow y).1
          (resolveWindow y).2 (resolvePrevWindow y).1 (resolvePrevWindow y).2
          orders shopData) := by
  have hsum : getShopOrderSummaryCore shopId (resolveRange sd ed).1
      (resolveRange sd ed).2 orders = ⟨0, 0, 0, 0⟩ := by
    simp only [getShopOrderSummaryCore]
    rw [hrange]
    rfl
  have htopfilter : orders.filter (matchTopClients shopId
      (resolveRange sd ed).1 (resolveRange sd ed).2) = [] := by
    have h2 := filter_and_empty (q := fun o => allowedStatus o.status) hrange
    simpa [matchTopClients] using h2
  have htop : getShopTopClientsCore shopId (resolveRange sd ed).1
      (resolveRange sd ed).2 orders users = ([], []) := by
    simp only [getShopTopClientsCore]
    rw [htopfilter]
    rfl
  have hprod : getShopProductStatsCore shopId (resolveWindow y).1
      (resolveWindow y).2 orders = [] := by
    simp only [getShopProductStatsCore]
    rw [hyear]
    rfl
  have hcat : getShopCategoryStatsCore shopId (resolveWindow y).1
      (resolveWindow y).2 orders products categories = [] := by
    simp only [getShopCategoryStatsCore]
    rw [hyear]
    rfl
  have hglob : getShopGlobalStatsCore shopId (resolveWindow y).1
      (resolveWindow y).2 (resolvePrevWindow y).1 (resolvePrevWindow y).2
      orders shopData
      = ⟨0, 0, 0, 0,
          (match shopData with | some s => s.avg_rating | none => 0),
          (match shopData with | some s => s.count_rating | none => 0),
          0, 0⟩ := by
    simp only [getShopGlobalStatsCore]
    rw [hyear, hprev]
    simp [calculatePercentageDiff, totalsOf, summaryAgg, distinctBuyers]
  refine ⟨?_, ?_, ?_, ?_, ?_, ?_, ?_, ?_, ?_, ?_, ?_⟩
  · simp [getShopOrderSummary, hsd, hed, hsum]
  · simp [getShopTopClients, hsd, hed, htop]
  · simp [getShopProductStats, hy, hprod]
  · simp [getShopCategoryStats, hy, hcat]
  · rw [hglob]
  · rw [hglob]
  · rw [hglob]
  · rw [hglob]
  · rw [hglob]
  · rw [hglob]
  · simp [getShopGlobalStats, hy]

/-- Witness for C8 at concrete inputs: an empty order ledger with valid
parameters. -/
theorem emptyWindow_spec_witness :
    getShopOrderSummary (some 1) (some "2024-01-01") (some "2024-02-01")
      (fun _ _ => (0, 100)) [] = .ok ⟨0, 0, 0, 0⟩ ∧
    getShopTopClients (some 1) (some "2024-01-01") (some "2024-02-01")
      (fun _ _ => (0, 100)) [] [] = .ok ([], []) ∧
    getShopProductStats (some 1) (some "2024") (fun _ => (0, 100)) []
      = .ok [] ∧
    getShopCategoryStats (some 1) (some "2024") (fun _ => (0, 100)) [] [] []
      = .ok [] ∧
    (getShopGlobalStatsCore 1 0 100 (-200) (-101) [] none).ordersDiff
      = 0 := by
  obtain ⟨h1, h2, h3, h4, _, _, _, h8, _, _, _⟩ := emptyWindow_spec 1
    "2024-01-01" "2024-02-01" "2024" (fun _ _ => (0, 100))
    (fun _ => (0, 100)) (fun _ => (-200, -101)) [] [] [] [] none
    (by decide) (by decide) (by decide) rfl rfl rfl
  exact ⟨h1, h2, h3, h4, h8⟩

/-- C9: every report is a pure function of the request parameters and of the
underlying order/user/product/category/shop data: two invocations with
equal parameters against equal data return equal results, for all five
handlers. -/
theorem reports_deterministic (shopA shopB : Option OID)
    (sdA sdB edA edB yA yB : Option String)
    (rangeA rangeB : String → String → ℤ × ℤ)
    (winA winB prevA prevB : String → ℤ × ℤ)
    (ordersA ordersB : List Order) (usersA usersB : List User)
    (productsA productsB : List Product)
    (categoriesA categoriesB : List Category) (shopDataA shopDataB : Option Shop)
    (hshop : shopA = shopB) (hsd : sdA = sdB) (hed : edA = edB)
    (hy : yA = yB) (hrange : rangeA = rangeB) (hwin : winA = winB)
    (hprev : prevA = prevB) (horders : ordersA = ordersB)
    (husers : usersA = usersB) (hproducts : productsA = productsB)
    (hcategories : categoriesA = categoriesB)
    (hshopData : shopDataA = shopDataB) :
    getShopOrderSummary shopA sdA edA rangeA ordersA
      = getShopOrderSummary shopB sdB edB rangeB ordersB ∧
    getShopTopClients shopA sdA edA rangeA ordersA usersA
      = getShopTopClients shopB sdB edB rangeB ordersB usersB ∧
    getShopProductStats shopA yA winA ordersA
      = getShopProductStats shopB yB winB ordersB ∧
    getShopCategoryStats shopA yA winA ordersA productsA categoriesA
      = getShopCategoryStats shopB yB winB ordersB productsB categoriesB ∧
    getShopGlobalStats shopA yA winA prevA ordersA shopDataA
      = getShopGlobalStats shopB yB winB prevB ordersB shopDataB := by
  subst hshop hsd hed hy hrange hwin hprev horders husers hproducts
    hcategories hshopData
  exact ⟨rfl, rfl, rfl, rfl, rfl⟩

/-- Witness for C9 at concrete inputs. -/
theorem reports_deterministic_witness :
    getShopOrderSummary (some 1) (some "2024-01-01") (some "2024-02-01")
        (fun _ _ => (0, 100)) [⟨1, 9, 1, .pending, 10, []⟩]
      = getShopOrderSummary (some 1) (some "2024-01-01") (some "2024-02-01")
        (fun _ _ => (0, 100)) [⟨1, 9, 1, .pending, 10, []⟩] ∧
    getShopGlobalStats (some 1) (some "2024") (fun _ => (0, 100))
        (fun _ => (-200, -101)) [⟨1, 9, 1, .pending, 10, []⟩] none
      = getShopGlobalStats (some 1) (some "2024") (fun _ => (0, 100))
        (fun _ => (-200, -101)) [⟨1, 9, 1, .pending, 10, []⟩] none := by
  obtain ⟨h1, _, _, _, h5⟩ := reports_deterministic (some 1) (some 1)
    (some "2024-01-01") (some "2024-01-01") (some "2024-02-01")
    (some "2024-02-01") (some "2024") (some "2024")
    (fun _ _ => (0, 100)) (fun _ _ => (0, 100))
    (fun _ => (0, 100)) (fun _ => (0, 100))
    (fun _ => (-200, -101)) (fun _ => (-200, -101))
    [⟨1, 9, 1, .pending, 10, []⟩] [⟨1, 9, 1, .pending, 10, []⟩] [] [] [] []
    [] [] none none rfl rfl rfl rfl rfl rfl rfl rfl rfl rfl rfl rfl
  exact ⟨h1, h5⟩
